import Mathlib

/-!
Verification development for the MLB at-bat tracker
(`src/bot.py`, `src/mlb_api.py`, `src/config.py`).

The Python sources are shallowly embedded: each `def` below mirrors one
Python function (names kept where Lean allows), dictionaries become
structures (a `dict.get` with a default becomes either a plain field or an
`Option` field read with `getD`), the JSON marker file becomes an explicit
finite map threaded through the poll cycle, and the Discord side effects of
`check_games` become an explicit action trace.
-/

/-! ### Case-insensitive substring matching

Python's `needle.lower() in hay.lower()` (used by `search_player` in
`mlb_api.py` and by the `remove_player` command in `bot.py`). -/

/-- Python substring containment of `sub` within `hay`, on character lists. -/
def listContainsSub (hay sub : List Char) : Bool :=
  match hay with
  | [] => sub.isEmpty
  | _ :: t => sub.isPrefixOf hay || listContainsSub t sub

/-- Python `s.lower()`, as the character list of the lowered string. -/
def strLower (s : String) : List Char :=
  s.toList.map Char.toLower

/-- Python `needle.lower() in hay.lower()`. -/
def containsCI (hay needle : String) : Bool :=
  listContainsSub (strLower hay) (strLower needle)

/-! ### Player search (`mlb_api.py`, `search_player` / `_format_player_info`) -/

/-- One record of the upstream `people` array, restricted to the fields the
code reads. A missing `fullName` key reads as `""` (Python
`player.get("fullName", "")`), folded into the field. -/
structure UpPlayer where
  upId : Nat
  fullName : String
  teamName : String
  deriving DecidableEq, Repr

/-- Output shape of `_format_player_info` (fields the claims touch). -/
structure PlayerInfo where
  pid : Nat
  name : String
  team : String
  deriving DecidableEq, Repr

/-- Embedding of `_format_player_info` (`mlb_api.py` lines 63-74), restricted to the
fields carried by `UpPlayer`. -/
def format_player_info (p : UpPlayer) : PlayerInfo :=
  { pid := p.upId, name := p.fullName, team := p.teamName }

/-- Embedding of `search_player` (`mlb_api.py` lines 40-61): iterates the upstream
`people` list and returns the FIRST player whose lowered full name contains
the lowered query, formatted; `none` when no player matches. The Python
signature is `search_player(self, name) -> Optional[Dict]` — a single
optional record, not a list. -/
def search_player (name : String) (people : List UpPlayer) : Option PlayerInfo :=
  match people.find? (fun p => containsCI p.fullName name) with
  | some p => some (format_player_info p)
  | none => none

/-! ### Roster removal (`bot.py`, `remove_player` command, lines 210-233) -/

/-- Core of the `remove_player` command: filters the roster down to entries
whose name does NOT contain the query (case-insensitively); when the length
is unchanged it reports not-found and does not write the roster file.
Returns the persisted roster after the command and whether a save occurred. -/
def remove_player (query : String) (roster : List PlayerInfo) :
    List PlayerInfo × Bool :=
  let roster' := roster.filter (fun p => !(containsCI p.name query))
  if roster'.length = roster.length then (roster, false) else (roster', true)

/-! ### Season stats (`mlb_api.py`, `_get_player_season_stats`, lines 214-258) -/

/-- The upstream `splits[0].stat` record. The three rate stats may be
absent (`stats.get("avg", ".000")`), hence `Option String`; counting stats
default to `0` via `stats.get(..., 0)`, folded into plain `Nat` fields. -/
structure RawSeasonStat where
  ravg : Option String
  robp : Option String
  rslg : Option String
  rhits : Nat
  ratBats : Nat
  rrbi : Nat
  rruns : Nat
  rhomeRuns : Nat
  deriving DecidableEq, Repr

/-- Output record of `_get_player_season_stats`. -/
structure SeasonStats where
  avg : String
  obp : String
  slg : String
  hits : Nat
  atbats : Nat
  rbi : Nat
  runs : Nat
  homeRuns : Nat
  deriving DecidableEq, Repr

/-- Python `s.lstrip("0") or "0"`: drop every leading `'0'` character;
if the result is empty, use `"0"`. -/
def lstripZeroOrZero (s : String) : String :=
  let t := String.mk (s.toList.dropWhile (fun c => c == '0'))
  if t = "" then ("0") else t

/-- Embedding of `_get_player_season_stats` (`mlb_api.py` lines 214-258) after the HTTP
fetch: `none` models an empty `splits` list (or a failed request), which
yields the all-zero fallback record; `some st` models `splits[0].stat`. -/
def get_player_season_stats (split : Option RawSeasonStat) : SeasonStats :=
  match split with
  | some st =>
    { avg := lstripZeroOrZero (st.ravg.getD (".000"))
      obp := lstripZeroOrZero (st.robp.getD (".000"))
      slg := lstripZeroOrZero (st.rslg.getD (".000"))
      hits := st.rhits
      atbats := st.ratBats
      rbi := st.rrbi
      runs := st.rruns
      homeRuns := st.rhomeRuns }
  | none =>
    { avg := ".000", obp := ".000", slg := ".000"
      hits := 0, atbats := 0, rbi := 0, runs := 0, homeRuns := 0 }

/-- The "Season Slash Line" field built by `post_atbat_update`
(`bot.py` line 327): `f".{avg} / .{obp} / .{slg}"` — a literal dot is
prepended to each stored stat string. -/
def slashLine (s : SeasonStats) : String :=
  "." ++ s.avg ++ " / ." ++ s.obp ++ " / ." ++ s.slg

/-! ### Game info (`mlb_api.py`, `_format_game_info`, lines 113-136) and the
per-game boxscore lookup (`get_player_game_stats`, lines 260-284) -/

/-- Per-game batting record returned by `get_player_game_stats`. -/
structure GameStatsR where
  ghits : Nat
  gatbats : Nat
  grbi : Nat
  gruns : Nat
  deriving DecidableEq, Repr

/-- One value of a boxscore `players` dict: the fields the code reads
(`person.id` and `stats.batting` with per-key `0` defaults folded in). -/
structure BoxPlayer where
  personId : Nat
  batting : GameStatsR
  deriving DecidableEq, Repr

/-- Shape of `liveData.boxscore.teams` of the live feed: the two `players` maps, in
the order the code scans them (`"away"` then `"home"`). -/
structure Boxscore where
  away : List BoxPlayer
  home : List BoxPlayer
  deriving DecidableEq, Repr

/-- Embedding of `get_player_game_stats` (`mlb_api.py` lines 260-284) after the HTTP
fetch: scan the away players then the home players for the entity's id;
the first match yields its batting stats, absence yields the all-zero
record. -/
def get_player_game_stats (pid : Nat) (box : Boxscore) : GameStatsR :=
  match (box.away ++ box.home).find? (fun bp => bp.personId == pid) with
  | some bp => bp.batting
  | none => { ghits := 0, gatbats := 0, grbi := 0, gruns := 0 }

/-- The schedule `games[0]` record, restricted to the fields
`_format_game_info` reads (string defaults folded in). -/
structure RawGame where
  gamePk : Nat
  awayName : String
  homeName : String
  awayRuns : Nat
  homeRuns : Nat
  currentInning : Nat
  detailedState : String
  deriving DecidableEq, Repr

/-- Output shape of `_format_game_info` plus the `player_stats` dict key
read by `post_game_summary` (`bot.py` line 361). The Python value is an
open dict, so the key is modelled as an `Option`; `_format_game_info`
never writes it. -/
structure GameInfo where
  game_pk : Nat
  away_team : String
  home_team : String
  away_score : Nat
  home_score : Nat
  inning : Nat
  gameComplete : Bool
  player_stats : Option GameStatsR
  deriving DecidableEq, Repr

/-- Embedding of `_format_game_info` (`mlb_api.py` lines 113-136): game completion is
`detailedState == "Final"`; no `player_stats` key is ever set. -/
def format_game_info (g : RawGame) : GameInfo :=
  { game_pk := g.gamePk
    away_team := g.awayName
    home_team := g.homeName
    away_score := g.awayRuns
    home_score := g.homeRuns
    inning := g.currentInning
    gameComplete := g.detailedState == "Final"
    player_stats := none }

/-- The stats record `post_game_summary` renders:
`game_data.get('player_stats', {})` with per-key `0` defaults
(`bot.py` lines 361-373). -/
def summaryStats (g : GameInfo) : GameStatsR :=
  g.player_stats.getD { ghits := 0, gatbats := 0, grbi := 0, gruns := 0 }

/-- The "Final Line" field of the game summary (`bot.py` line 365):
`f"{hits}-for-{atbats}"`. -/
def summaryFinalLine (g : GameInfo) : String :=
  toString (summaryStats g).ghits ++ "-for-" ++ toString (summaryStats g).gatbats

/-! ### At-bat formatting (`mlb_api.py`, `_format_atbat`, lines 182-212) -/

/-- One entry of a play's `runners` array: `runner["movement"]["start"]`
with Python `.get` chaining — `none` models a missing `movement` dict or a
missing/null `start` key. -/
structure Runner where
  movementStart : Option String
  deriving DecidableEq, Repr

/-- A play of `liveData.plays.allPlays`, restricted to the fields
`_format_atbat` reads (`.get` string/number defaults folded in). -/
structure Play where
  atBatIndex : Nat
  resultEvent : String
  resultDescription : String
  runners : List Runner
  aboutInning : Nat
  aboutHalfInning : String
  deriving DecidableEq, Repr

/-- Output shape of `_format_atbat`. -/
structure AtBatF where
  abId : Nat
  result : String
  description : String
  was_hit : Bool
  risp : Bool
  inningLabel : String
  stats : SeasonStats
  deriving DecidableEq, Repr

/-- Embedding of `_format_atbat` (`mlb_api.py` lines 182-212): RISP is `any` runner
movement starting at `"2B"` or `"3B"`; a hit is membership of the result
event in the fixed list `["Single", "Double", "Triple", "Home Run"]`. -/
def format_atbat (play : Play) (playerStats : SeasonStats) : AtBatF :=
  { abId := play.atBatIndex
    result := play.resultEvent
    description := play.resultDescription
    was_hit := ["Single", "Double", "Triple", "Home Run"].contains play.resultEvent
    risp := play.runners.any
      (fun r => r.movementStart == some ("2B") || r.movementStart == some ("3B"))
    inningLabel := play.aboutHalfInning.capitalize ++ " " ++ toString play.aboutInning
    stats := playerStats }

/-! ### The poll cycle (`bot.py`, `check_games`, lines 261-307)

`check_games` loads the marker file, then for each roster player: fetches
today's game (`None` on no game, no team, or a failed request, since
`_request` converts any transport/decode error into `{}`), fetches the
latest qualifying at-bat (`None` likewise), compares its id against the
stored marker, and on a difference posts the at-bat update, writes the
marker file, and — if the game snapshot is complete — posts a game summary.
A raised exception anywhere inside the loop body (e.g. a failed Discord
post) is caught per player and the loop continues.

The marker file is a `Nat → Option Nat` map (Python keys are `str(id)`,
and `str` is injective on ids). Side effects are recorded as an `Act`
trace: only operations that actually happened are recorded, so a failed
post contributes nothing. -/

/-- The persisted `last_atbats.json` map. -/
def Markers : Type := Nat → Option Nat

/-- Python `last_atbats[key] = value` (dict update). -/
def updateM (m : Markers) (k v : Nat) : Markers :=
  fun k' => if k' = k then some v else m k'

/-- What the outside world returns for one player during one cycle:
`game` is the `get_player_game_today` result, `atbat` the
`get_latest_atbat` result (each `none` on missing data OR on a
transport/decode failure, which `_request` maps to empty data), and the two
`Ok` flags tell whether the corresponding Discord post succeeds or raises. -/
structure EntityEnv where
  game : Option GameInfo
  atbat : Option AtBatF
  postAtBatOk : Bool
  postSummaryOk : Bool

/-- One observable action of a poll cycle, in execution order:
a delivered at-bat post, a write of the marker file recording
`pid ↦ abId`, or a delivered game-summary post. -/
inductive Act where
  | postAtBat (pid abId : Nat)
  | save (pid abId : Nat)
  | postSummary (pid gamePk : Nat)
  deriving DecidableEq, Repr

/-- The body of the `for player in roster` loop of `check_games`
(`bot.py` lines 276-307) for one player: returns the marker map after the
iteration and the trace of actions that happened. The `try`/`except`
around the body means a failed at-bat post aborts the iteration before the
marker write, and a failed summary post aborts after it. -/
def processPlayer (env : EntityEnv) (pid : Nat) (m : Markers) :
    Markers × List Act :=
  match env.game, env.atbat with
  | some g, some ab =>
    if some ab.abId = m pid then (m, [])
    else if env.postAtBatOk then
      let m' := updateM m pid ab.abId
      if g.gameComplete then
        if env.postSummaryOk then
          (m', [Act.postAtBat pid ab.abId, Act.save pid ab.abId,
                Act.postSummary pid g.game_pk])
        else (m', [Act.postAtBat pid ab.abId, Act.save pid ab.abId])
      else (m', [Act.postAtBat pid ab.abId, Act.save pid ab.abId])
    else (m, [])
  | _, _ => (m, [])

/-- The full roster loop of `check_games`: players are processed in roster
order, the marker map threads through, and the traces concatenate. -/
def check_games (env : Nat → EntityEnv) (roster : List Nat) (m : Markers) :
    Markers × List Act :=
  match roster with
  | [] => (m, [])
  | p :: rest =>
    let step := processPlayer (env p) p m
    let restRun := check_games env rest step.1
    (restRun.1, step.2 ++ restRun.2)

/-- Did the trace deliver an at-bat post for `pid`? -/
def atBatPosted (acts : List Act) (pid : Nat) : Bool :=
  acts.any fun a =>
    match a with
    | Act.postAtBat q _ => q == pid
    | _ => false

/-- Did the trace deliver a game-summary post for `pid`? -/
def summaryPosted (acts : List Act) (pid : Nat) : Bool :=
  acts.any fun a =>
    match a with
    | Act.postSummary q _ => q == pid
    | _ => false

/-- Every marker write in the trace immediately follows the delivered
at-bat post it records, for the same player and event id (i.e. persistence
is per-entity and immediate, never batched). -/
def savesFollowPosts : List Act → Bool
  | [] => true
  | Act.save _ _ :: _ => false
  | Act.postAtBat p v :: Act.save q w :: rest =>
    p == q && v == w && savesFollowPosts rest
  | Act.postAtBat _ _ :: rest => savesFollowPosts rest
  | Act.postSummary _ _ :: rest => savesFollowPosts rest

/-! ### Shared concrete example data for witnesses and counterexamples -/

/-- A zero season-stat record, used as example data. -/
def sZero : SeasonStats :=
  { avg := ".000", obp := ".000", slg := ".000"
    hits := 0, atbats := 0, rbi := 0, runs := 0, homeRuns := 0 }

/-- Example play with no runner records. -/
def playEmpty : Play :=
  { atBatIndex := 12, resultEvent := "Home Run", resultDescription := "homers"
    runners := [], aboutInning := 3, aboutHalfInning := "top" }

/-- Example roster with two players. -/
def rosterEx : List PlayerInfo :=
  [ { pid := 660271, name := "Shohei Ohtani", team := "Los Angeles Dodgers" },
    { pid := 592450, name := "Aaron Judge", team := "New York Yankees" } ]

/-- C8: the hit flag is true exactly on the closed set
{Single, Double, Triple, Home Run}, and the hit flag plays no role in the
notification decision: two at-bat records with the same event id lead to
the same posting outcome. -/
theorem claim_C8 (play : Play) (s : SeasonStats) (env : EntityEnv)
    (pid : Nat) (m : Markers) (ab ab' : AtBatF) (h : ab.abId = ab'.abId) :
    ((format_atbat play s).was_hit = true ↔
      (play.resultEvent = "Single" ∨ play.resultEvent = "Double" ∨
       play.resultEvent = "Triple" ∨ play.resultEvent = "Home Run"))
    ∧ atBatPosted (processPlayer { env with atbat := some ab } pid m).2 pid
      = atBatPosted (processPlayer { env with atbat := some ab' } pid m).2 pid := by
  constructor
  · simp [format_atbat, List.contains_eq_any_beq, beq_iff_eq]
  · rcases env with ⟨og, oab, pok, sok⟩
    cases og with
    | none => rfl
    | some g => simp only [processPlayer, h]

/-- C8 witness at concrete inputs. -/
theorem claim_C8_witness :
    (format_atbat playEmpty sZero).was_hit = true :=
  (claim_C8 playEmpty sZero
      ⟨none, none, true, true⟩ 1 (fun _ => none)
      (format_atbat playEmpty sZero) (format_atbat playEmpty sZero) rfl).1.mpr
    (by decide)

/-- C9: the RISP flag is true iff some runner-movement record of the play
has start base `"2B"` or `"3B"`; in particular a play with no runner
records yields `risp = false`. -/
theorem claim_C9 (play : Play) (s : SeasonStats) :
    ((format_atbat play s).risp = true ↔
      ∃ r ∈ play.runners,
        r.movementStart = some ("2B") ∨ r.movementStart = some ("3B"))
    ∧ (play.runners = [] → (format_atbat play s).risp = false) := by
  constructor
  · simp [format_atbat, List.any_eq_true]
  · intro h
    simp [format_atbat, h]

/-- C9 witness: a play with no runner records has `risp = false`. -/
theorem claim_C9_witness :
    (format_atbat playEmpty sZero).risp = false :=
  (claim_C9 playEmpty sZero).2 rfl

/-- C10: `remove_player` deletes exactly the roster entries whose name
contains the query case-insensitively (possibly several at once); it
reports not-found (no save) iff no entry matches, and in that case the
persisted roster is unchanged. -/
theorem claim_C10 (q : String) (roster : List PlayerInfo) :
    (∀ p, p ∈ (remove_player q roster).1 ↔
        p ∈ roster ∧ containsCI p.name q = false)
    ∧ ((remove_player q roster).2 = false ↔
        ∀ p ∈ roster, containsCI p.name q = false)
    ∧ ((remove_player q roster).2 = false →
        (remove_player q roster).1 = roster) := by
  set f := roster.filter (fun p => !(containsCI p.name q)) with hf
  by_cases h : f.length = roster.length
  · have hre : remove_player q roster = (roster, false) := by
      simp [remove_player, ← hf, h]
    have heq : f = roster := (List.filter_sublist roster).eq_of_length h
    have hall : ∀ p ∈ roster, containsCI p.name q = false := by
      intro p hp
      have hmem : p ∈ f := by rw [heq]; exact hp
      rcases List.mem_filter.mp hmem with ⟨_, hpred⟩
      simpa using hpred
    refine ⟨?_, ?_, ?_⟩
    · intro p
      rw [hre]
      exact ⟨fun hp => ⟨hp, hall p hp⟩, fun hp => hp.1⟩
    · rw [hre]
      exact ⟨fun _ => hall, fun _ => rfl⟩
    · intro _
      rw [hre]
  · have hre : remove_player q roster = (f, true) := by
      simp [remove_player, ← hf, h]
    have hnall : ¬ ∀ p ∈ roster, containsCI p.name q = false := by
      intro hall
      apply h
      have hfr : f = roster := by
        rw [hf]
        exact List.filter_eq_self.mpr (fun p hp => by simp [hall p hp])
      rw [hfr]
    refine ⟨?_, ?_, ?_⟩
    · intro p
      rw [hre, hf]
      simp [List.mem_filter]
    · rw [hre]
      simp [hnall]
    · rw [hre]
      simp
  
/-- C10 witness: a query matching nothing leaves the roster unchanged. -/
theorem claim_C10_witness :
    (remove_player ("zzz") rosterEx).1 = rosterEx :=
  (claim_C10 ("zzz") rosterEx).2.2 (by decide)

/-! ### Structure lemmas about one loop iteration -/

/-- An iteration that stops early (no game, no qualifying at-bat, marker
already equal, or a failed at-bat post) leaves the markers untouched and
performs no action. -/
theorem processPlayer_stop (env : EntityEnv) (pid : Nat) (m : Markers)
    (hstop : env.game = none ∨ env.atbat = none ∨
      (∃ ab, env.atbat = some ab ∧ some ab.abId = m pid) ∨
      env.postAtBatOk = false) :
    processPlayer env pid m = (m, []) := by
  obtain ⟨og, oab, pok, sok⟩ := env
  cases og with
  | none => rfl
  | some g =>
    cases oab with
    | none => rfl
    | some ab =>
      rcases hstop with hstop | hstop | ⟨ab', hab', heq⟩ | hstop
      · exact absurd hstop (by simp)
      · exact absurd hstop (by simp)
      · obtain rfl : ab = ab' := by simpa using hab'
        simp [processPlayer, heq]
      · obtain rfl : pok = false := hstop
        simp [processPlayer]

/-- An iteration that detects a new event with a successful at-bat post:
the marker is written to the new event id and the trace is the post
followed immediately by the marker write, then the summary when the game
is complete and the summary post succeeds. -/
theorem processPlayer_new (env : EntityEnv) (pid : Nat) (m : Markers)
    (g : GameInfo) (ab : AtBatF) (hg : env.game = some g)
    (hab : env.atbat = some ab) (hne : ¬ some ab.abId = m pid)
    (hok : env.postAtBatOk = true) :
    processPlayer env pid m =
      (updateM m pid ab.abId,
       Act.postAtBat pid ab.abId :: Act.save pid ab.abId ::
         (if g.gameComplete && env.postSummaryOk then
            [Act.postSummary pid g.game_pk]
          else [])) := by
  obtain ⟨og, oab, pok, sok⟩ := env
  obtain rfl : og = some g := hg
  obtain rfl : oab = some ab := hab
  obtain rfl : pok = true := hok
  simp only [processPlayer, hne, if_false, if_true]
  by_cases hc : g.gameComplete <;> by_cases hs : sok <;> simp [hc, hs]

/-- Exactly one of the two iteration shapes applies. -/
theorem processPlayer_split (env : EntityEnv) (pid : Nat) (m : Markers) :
    (env.game = none ∨ env.atbat = none ∨
      (∃ ab, env.atbat = some ab ∧ some ab.abId = m pid) ∨
      env.postAtBatOk = false)
    ∨ (∃ g ab, env.game = some g ∧ env.atbat = some ab ∧
        ¬ some ab.abId = m pid ∧ env.postAtBatOk = true) := by
  obtain ⟨og, oab, pok, sok⟩ := env
  cases og with
  | none => exact Or.inl (Or.inl rfl)
  | some g =>
    cases oab with
    | none => exact Or.inl (Or.inr (Or.inl rfl))
    | some ab =>
      by_cases hm : some ab.abId = m pid
      · exact Or.inl (Or.inr (Or.inr (Or.inl ⟨ab, rfl, hm⟩)))
      · cases pok with
        | false => exact Or.inl (Or.inr (Or.inr (Or.inr rfl)))
        | true => exact Or.inr ⟨g, ab, rfl, rfl, hm, rfl⟩

/-- C1: with a succeeding at-bat post, a notification is delivered for the
entity iff a latest qualifying event exists and its id differs from the
stored marker (a missing marker included); after a notified event the
marker equals that event id; and re-running the iteration on the updated
markers with unchanged upstream state delivers no duplicate. -/
theorem claim_C1 (env : EntityEnv) (pid : Nat) (m : Markers)
    (hok : env.postAtBatOk = true) :
    (atBatPosted (processPlayer env pid m).2 pid = true ↔
      ∃ g ab, env.game = some g ∧ env.atbat = some ab ∧
        m pid ≠ some ab.abId)
    ∧ (∀ ab, env.atbat = some ab →
        atBatPosted (processPlayer env pid m).2 pid = true →
        (processPlayer env pid m).1 pid = some ab.abId)
    ∧ atBatPosted
        (processPlayer env pid (processPlayer env pid m).1).2 pid = false := by
  rcases processPlayer_split env pid m with hstop | ⟨g, ab, hg, hab, hne, _⟩
  · have hp := processPlayer_stop env pid m hstop
    refine ⟨?_, ?_, ?_⟩
    · rw [hp]
      constructor
      · intro h
        simp [atBatPosted] at h
      · rintro ⟨g, ab, hg, hab, hne⟩
        exfalso
        rcases hstop with h | h | ⟨ab', hab', heq⟩ | h
        · rw [hg] at h
          cases h
        · rw [hab] at h
          cases h
        · rw [hab] at hab'
          obtain rfl : ab = ab' := by simpa using hab'
          exact hne heq.symm
        · rw [hok] at h
          cases h
    · intro ab hab hpost
      rw [hp] at hpost
      simp [atBatPosted] at hpost
    · rw [hp]
      rw [hp]
      simp [atBatPosted]
  · have hp := processPlayer_new env pid m g ab hg hab hne hok
    refine ⟨?_, ?_, ?_⟩
    · rw [hp]
      constructor
      · intro _
        exact ⟨g, ab, hg, hab, fun h => hne h.symm⟩
      · intro _
        simp [atBatPosted]
    · intro ab' hab' _
      rw [hab] at hab'
      obtain rfl : ab = ab' := by simpa using hab'
      rw [hp]
      simp [updateM]
    · have hm' : (processPlayer env pid m).1 pid = some ab.abId := by
        rw [hp]
        simp [updateM]
      have hstop2 : processPlayer env pid (processPlayer env pid m).1 =
          ((processPlayer env pid m).1, []) :=
        processPlayer_stop env pid (processPlayer env pid m).1
          (Or.inr (Or.inr (Or.inl ⟨ab, hab, hm'.symm⟩)))
      rw [hstop2]
      simp [atBatPosted]

/-- C1 witness: first-ever notification for a fresh entity, marker
established at the event id, and no duplicate on an identical second poll. -/
theorem claim_C1_witness :
    atBatPosted
      (processPlayer
        ⟨some (format_game_info
                ⟨717715, "Los Angeles Dodgers", "San Diego Padres",
                 2, 1, 3, "In Progress"⟩),
         some (format_atbat playEmpty sZero), true, true⟩
        660271 (fun _ => none)).2 660271 = true :=
  (claim_C1
      ⟨some (format_game_info
              ⟨717715, "Los Angeles Dodgers", "San Diego Padres",
               2, 1, 3, "In Progress"⟩),
       some (format_atbat playEmpty sZero), true, true⟩
      660271 (fun _ => none) rfl).1.mpr
    ⟨format_game_info
        ⟨717715, "Los Angeles Dodgers", "San Diego Padres",
         2, 1, 3, "In Progress"⟩,
     format_atbat playEmpty sZero, rfl, rfl, by simp⟩

/-- Every iteration trace is empty, post-then-save, or
post-then-save-then-summary, always for the iterated player. -/
theorem processPlayer_trace_shapes (env : EntityEnv) (pid : Nat)
    (m : Markers) :
    (processPlayer env pid m).2 = [] ∨
    (∃ v, (processPlayer env pid m).2 =
      [Act.postAtBat pid v, Act.save pid v]) ∨
    (∃ v gp, (processPlayer env pid m).2 =
      [Act.postAtBat pid v, Act.save pid v, Act.postSummary pid gp]) := by
  rcases processPlayer_split env pid m with hstop | ⟨g, ab, hg, hab, hne, hok⟩
  · rw [processPlayer_stop env pid m hstop]
    exact Or.inl rfl
  · rw [processPlayer_new env pid m g ab hg hab hne hok]
    by_cases hc : (g.gameComplete && env.postSummaryOk) = true
    · exact Or.inr (Or.inr ⟨ab.abId, g.game_pk, by simp [hc]⟩)
    · exact Or.inr (Or.inl ⟨ab.abId, by simp [hc]⟩)

/-- Invariant: `savesFollowPosts` holds over every cycle trace, from any starting markers. -/
theorem check_games_savesFollowPosts (env : Nat → EntityEnv)
    (roster : List Nat) (m : Markers) :
    savesFollowPosts (check_games env roster m).2 = true := by
  induction roster generalizing m with
  | nil => rfl
  | cons p rest ih =>
    simp only [check_games]
    rcases processPlayer_trace_shapes (env p) p m with h | ⟨v, h⟩ | ⟨v, gp, h⟩ <;>
      rw [h] <;> simp [savesFollowPosts, ih]

/-- C2: every marker write in a cycle trace immediately follows the
successful at-bat post it records (persistence is per entity and immediate,
never batched); an iteration whose at-bat post fails leaves the stored
markers unchanged and performs no action; and whenever no at-bat post was
delivered for the entity, its stored marker stays unchanged. -/
theorem claim_C2 (env : Nat → EntityEnv) (roster : List Nat) (m : Markers) :
    savesFollowPosts (check_games env roster m).2 = true
    ∧ (∀ pid m', (env pid).postAtBatOk = false →
        processPlayer (env pid) pid m' = (m', []))
    ∧ (∀ pid m', atBatPosted (processPlayer (env pid) pid m').2 pid = false →
        (processPlayer (env pid) pid m').1 = m') := by
  refine ⟨check_games_savesFollowPosts env roster m, ?_, ?_⟩
  · intro pid m' hfail
    exact processPlayer_stop (env pid) pid m'
      (Or.inr (Or.inr (Or.inr hfail)))
  · intro pid m' hnopost
    rcases processPlayer_split (env pid) pid m' with hstop | ⟨g, ab, hg, hab, hne, hok⟩
    · rw [processPlayer_stop (env pid) pid m' hstop]
    · rw [processPlayer_new (env pid) pid m' g ab hg hab hne hok] at hnopost
      simp [atBatPosted] at hnopost

/-- C2 witness: a failing at-bat post leaves markers untouched and delivers
nothing, at a concrete new-event input. -/
theorem claim_C2_witness :
    processPlayer
      ((fun _ => (⟨some (format_game_info
            ⟨717715, "Los Angeles Dodgers", "San Diego Padres",
             2, 1, 3, "In Progress"⟩),
          some (format_atbat playEmpty sZero), false, true⟩ : EntityEnv)) 660271)
      660271 (fun _ => none) = ((fun _ => none), []) :=
  (claim_C2
      (fun _ => ⟨some (format_game_info
            ⟨717715, "Los Angeles Dodgers", "San Diego Padres",
             2, 1, 3, "In Progress"⟩),
          some (format_atbat playEmpty sZero), false, true⟩)
      [660271] (fun _ => none)).2.1 660271 (fun _ => none) rfl

/-- A roster entry whose processing fails: the game fetch or the
play-by-play fetch came back empty (`_request` turns any transport or
decode error into `{}`, which the callers surface as `None`), or the
at-bat post raised. -/
def entryFails (e : EntityEnv) : Prop :=
  e.game = none ∨ e.atbat = none ∨ e.postAtBatOk = false

/-- C4: a failing roster entry contributes no notification and no marker
change, and the whole cycle on a roster containing it equals the cycle on
the roster with that entry dropped — every other entry, before and after
it, is processed identically; nothing aborts. -/
theorem claim_C4 (env : Nat → EntityEnv) (r1 r2 : List Nat) (p : Nat)
    (m : Markers) (h : entryFails (env p)) :
    check_games env (r1 ++ p :: r2) m = check_games env (r1 ++ r2) m
    ∧ (∀ m', processPlayer (env p) p m' = (m', [])) := by
  have hstep : ∀ m', processPlayer (env p) p m' = (m', []) := by
    intro m'
    apply processPlayer_stop
    rcases h with h | h | h
    · exact Or.inl h
    · exact Or.inr (Or.inl h)
    · exact Or.inr (Or.inr (Or.inr h))
  refine ⟨?_, hstep⟩
  induction r1 generalizing m with
  | nil =>
    simp only [List.nil_append, check_games]
    rw [hstep m]
    simp
  | cons q r1' ih =>
    simp only [List.cons_append, check_games, List.append_eq]
    rw [ih]

/-- C4 witness: with the game-feed call failing for the middle entity, the
cycle is the same as without that entity, at concrete inputs. -/
theorem claim_C4_witness :
    check_games
      (fun _ => (⟨none, none, true, true⟩ : EntityEnv))
      ([592450] ++ 660271 :: [545361]) (fun _ => none)
    = check_games (fun _ => (⟨none, none, true, true⟩ : EntityEnv))
        ([592450] ++ [545361]) (fun _ => none) :=
  (claim_C4 (fun _ => ⟨none, none, true, true⟩) [592450] [545361] 660271
      (fun _ => none) (Or.inl rfl)).1

/-- A completed-game snapshot (upstream `detailedState = "Final"`). -/
def gFinal : GameInfo :=
  format_game_info
    ⟨717715, "Los Angeles Dodgers", "San Diego Padres", 5, 3, 9, "Final"⟩

/-- Cycle environment in which completion is observed while the latest
at-bat id (12) is already the stored marker: the cycle right after the
final at-bat was notified with the game still in progress. -/
def envC6 : EntityEnv :=
  ⟨some gFinal, some (format_atbat playEmpty sZero), true, true⟩

/-- Markers with entity 660271 already at event id 12. -/
def mC6 : Markers := updateM (fun _ => none) 660271 12

/-- C6 counterexample: on the cycle where completion is first observed
(`gameComplete = true`) but the latest event id equals the stored marker,
the iteration performs no action at all — in particular no game-summary
notification is ever emitted for this game, contradicting "it fires on the
cycle where completion is first observed". -/
theorem claim_C6_counterexample :
    envC6.game = some gFinal ∧ gFinal.gameComplete = true ∧
    envC6.atbat = some (format_atbat playEmpty sZero) ∧
    (format_atbat playEmpty sZero).abId = 12 ∧ mC6 660271 = some 12 ∧
    (processPlayer envC6 660271 mC6).2 = [] := by
  refine ⟨rfl, rfl, rfl, rfl, rfl, ?_⟩
  rfl

/-- C6 amended: a game-summary notification is delivered on a cycle iff
that cycle detects a NEW latest event id, the at-bat post succeeds, the
snapshot shows the game complete, and the summary post succeeds; a repeat
iteration under unchanged upstream state never re-delivers a summary.
(Completion first observed on a cycle with an unchanged latest event id
triggers no summary at all.) -/
theorem claim_C6 (env : EntityEnv) (pid : Nat) (m : Markers) :
    (summaryPosted (processPlayer env pid m).2 pid = true ↔
      ∃ g ab, env.game = some g ∧ env.atbat = some ab ∧
        m pid ≠ some ab.abId ∧ env.postAtBatOk = true ∧
        g.gameComplete = true ∧ env.postSummaryOk = true)
    ∧ summaryPosted
        (processPlayer env pid (processPlayer env pid m).1).2 pid = false := by
  rcases processPlayer_split env pid m with hstop | ⟨g, ab, hg, hab, hne, hok⟩
  · have hp := processPlayer_stop env pid m hstop
    refine ⟨?_, ?_⟩
    · rw [hp]
      constructor
      · intro hcontra
        simp [summaryPosted] at hcontra
      · rintro ⟨g, ab, hg, hab, hne, hok, _, _⟩
        exfalso
        rcases hstop with h | h | ⟨ab', hab', heq⟩ | h
        · rw [hg] at h
          cases h
        · rw [hab] at h
          cases h
        · rw [hab] at hab'
          obtain rfl : ab = ab' := by simpa using hab'
          exact hne heq.symm
        · rw [hok] at h
          cases h
    · have h1 : (processPlayer env pid m).1 = m := by rw [hp]
      rw [h1, hp]
      simp [summaryPosted]
  · have hp := processPlayer_new env pid m g ab hg hab hne hok
    have hm' : (processPlayer env pid m).1 pid = some ab.abId := by
      rw [hp]
      simp [updateM]
    refine ⟨?_, ?_⟩
    · rw [hp]
      by_cases hcs : (g.gameComplete && env.postSummaryOk) = true
      · obtain ⟨hc, hs⟩ : g.gameComplete = true ∧ env.postSummaryOk = true := by
          simpa using hcs
        simp only [hcs, if_true]
        constructor
        · intro _
          exact ⟨g, ab, hg, hab, fun hh => hne hh.symm, hok, hc, hs⟩
        · intro _
          simp [summaryPosted]
      · simp only [hcs, if_false]
        constructor
        · intro hcontra
          simp [summaryPosted] at hcontra
        · rintro ⟨g', ab', hg', hab', _, _, hc, hs⟩
          exfalso
          rw [hg] at hg'
          obtain rfl : g = g' := by simpa using hg'
          exact hcs (by simp [hc, hs])
    · have hstop2 := processPlayer_stop env pid (processPlayer env pid m).1
        (Or.inr (Or.inr (Or.inl ⟨ab, hab, hm'.symm⟩)))
      rw [hstop2]
      simp [summaryPosted]

/-- Upstream roster rows for the C3 evaluation: two distinct players whose
names both contain "smith" case-insensitively. -/
def peopleSmith : List UpPlayer :=
  [ ⟨669257, "Will Smith", "Los Angeles Dodgers"⟩,
    ⟨642086, "Dominic Smith", "Boston Red Sox"⟩ ]

/-- C3 evaluation at the failing input: both rows match the query, yet
`search_player` returns only the first as a single optional record — it
has no list-of-all-matches result at all — and the no-match outcome is
`none`, not an empty list. (The caller `add_player` in `bot.py` even
invokes `search_player(name, return_multiple=True)` and indexes the result
as a list, but the function accepts no such parameter.) -/
theorem claim_C3 :
    search_player ("smith") peopleSmith =
      some (format_player_info ⟨669257, "Will Smith", "Los Angeles Dodgers"⟩)
    ∧ containsCI ("Dominic Smith") ("smith") = true
    ∧ search_player ("smith") [] = none := by
  refine ⟨by decide, by decide, rfl⟩

/-- Boxscore for the C5 evaluation: the tracked entity id 660271 appears
on the home side with 2 hits in 4 at-bats. -/
def boxEx : Boxscore :=
  { away := [⟨543037, ⟨1, 3, 0, 1⟩⟩]
    home := [⟨660271, ⟨2, 4, 1, 1⟩⟩] }

/-- C5: the secondary boxscore lookup does scan both teams for the
entity's id and yields zeros when it is absent — but the summary that
`check_games` actually posts renders the `player_stats` key, which
`_format_game_info` never sets and which no caller ever fills
(`get_player_game_stats` is invoked nowhere): for every game record the
posted final line is "0-for-0", whatever the boxscore says. -/
theorem claim_C5 :
    (∀ raw : RawGame,
      summaryStats (format_game_info raw) =
        { ghits := 0, gatbats := 0, grbi := 0, gruns := 0 }
      ∧ summaryFinalLine (format_game_info raw) = "0-for-0")
    ∧ get_player_game_stats 660271 boxEx =
        { ghits := 2, gatbats := 4, grbi := 1, gruns := 1 }
    ∧ get_player_game_stats 99 boxEx =
        { ghits := 0, gatbats := 0, grbi := 0, gruns := 0 } := by
  refine ⟨fun raw => ⟨rfl, ?_⟩, rfl, rfl⟩
  simp only [summaryFinalLine, summaryStats, format_game_info, Option.getD_none]
  decide

/-- Upstream season split for the C7 evaluation, with leading-zero rate
stats as the stripping branch expects. -/
def splitEx : RawSeasonStat :=
  { ravg := some "0.275", robp := some "0.342", rslg := some "0.512"
    rhits := 50, ratBats := 182, rrbi := 30, rruns := 28, rhomeRuns := 9 }

/-- C7: the formatter itself behaves as claimed — `".275"` is left
unchanged, `"0.275"` becomes `".275"`, and a missing split yields
`".000"` fields — but the posted slash line is NOT these fields: the
posting code prepends a second dot to each already-dotted field, so the
message shows `"..275 / ..342 / ..512"` (and `"..000 / ..000 / ..000"`
when no split exists). -/
theorem claim_C7 :
    lstripZeroOrZero (".275") = ".275"
    ∧ lstripZeroOrZero ("0.275") = ".275"
    ∧ (get_player_season_stats (some splitEx)).avg = ".275"
    ∧ (get_player_season_stats none).avg = ".000"
    ∧ (get_player_season_stats none).obp = ".000"
    ∧ (get_player_season_stats none).slg = ".000"
    ∧ slashLine (get_player_season_stats (some splitEx)) =
        "..275 / ..342 / ..512"
    ∧ slashLine (get_player_season_stats none) =
        "..000 / ..000 / ..000" := by
  refine ⟨rfl, rfl, rfl, rfl, rfl, rfl, rfl, rfl⟩
